import Mathlib

/-
Verification of the TeamCity REST API client (`teamcityrestapiclient.py`)
against its natural-language specification.

The Python module is shallowly embedded:
  * Python values that flow through the client (locator and parameter values,
    JSON field values, endpoint identifiers) are modelled by `PyVal`.
  * Python `dict` assignment and lookup are modelled on association lists
    that keep insertion order, as CPython dicts do: assigning to a present
    key updates the value in place (keeping the key's original position),
    assigning to an absent key appends the entry at the end.
  * `datetime` values are modelled by `PyDateTime`; subtraction of a
    `timedelta(minutes=m)` is computed through a linear minute count using
    the standard civil-calendar day-number conversion, and `strftime` is an
    interpreter over the format string with CPython's zero-padded numeric
    directives.
  * The HTTP layer (`requests.get` followed by `.json()`) is abstracted as a
    transport function `Request → α`: the composed request is handed to the
    transport and the decoded body is whatever the transport returns.
  * Fallible Python operations return `Except PyErr`.
-/

namespace TeamCity

/-- A Python value as used by the client: an `int`, a `str`, or `None`.
These are the only value shapes the specification's claims exercise. -/
inductive PyVal where
  | int (n : Int)
  | str (s : String)
  | none
deriving DecidableEq, Repr

/-- A Python exception, as far as the client can raise one locally. -/
inductive PyErr where
  | typeError (msg : String)
deriving DecidableEq, Repr

/-- Python `str(v)`, which is also what the `%s` conversion produces. -/
def pyStr : PyVal → String
  | .int n => toString n
  | .str s => s
  | .none => "None"

/-- Python's `%d` conversion: accepts a number, raises `TypeError` otherwise. -/
def pyFormatD : PyVal → Except PyErr String
  | .int n => .ok (toString n)
  | .str _ => .error (.typeError "%d format: a number is required, not str")
  | .none => .error (.typeError "%d format: a number is required, not NoneType")

/-- A Python `dict` with string keys, as an insertion-ordered association
list with pairwise-distinct keys. -/
abbrev PyDict := List (String × PyVal)

/-- Python dict assignment `m[k] = v`: update the value in place if `k` is
present (the key keeps its original position), append the entry otherwise. -/
def dictSet : PyDict → String → PyVal → PyDict
  | [], k, v => [(k, v)]
  | kv :: tl, k, v => if kv.1 = k then (kv.1, v) :: tl else kv :: dictSet tl k v

/-- Python dict lookup `m.get(k)`: the value at the first matching key,
`None` (here `Option.none`) if absent. -/
def dictGet : PyDict → String → Option PyVal
  | [], _ => Option.none
  | kv :: tl, k => if kv.1 = k then some kv.2 else dictGet tl k

/-- A broken-down `datetime.datetime` value. -/
structure PyDateTime where
  year : Int
  month : Int
  day : Int
  hour : Int
  minute : Int
  second : Int
deriving DecidableEq, Repr

/-- Day number of a civil date (days since 1970-01-01), the standard
era-based conversion used by calendar libraries, with C-style truncating
division as in the reference formulation. -/
def daysFromCivil (y m d : Int) : Int :=
  let y' := if m ≤ 2 then y - 1 else y
  let era := (if 0 ≤ y' then y' else y' - 399).tdiv 400
  let yoe := y' - era * 400
  let doy := ((153 * (if 2 < m then m - 3 else m + 9) + 2).tdiv 5) + d - 1
  let doe := yoe * 365 + yoe.tdiv 4 - yoe.tdiv 100 + doy
  era * 146097 + doe - 719468

/-- Civil date (year, month, day) of a day number, inverse of
`daysFromCivil`. -/
def civilFromDays (z : Int) : Int × Int × Int :=
  let z' := z + 719468
  let era := (if 0 ≤ z' then z' else z' - 146096).tdiv 146097
  let doe := z' - era * 146097
  let yoe := (doe - doe.tdiv 1460 + doe.tdiv 36524 - doe.tdiv 146096).tdiv 365
  let y := yoe + era * 400
  let doy := doe - (365 * yoe + yoe.tdiv 4 - yoe.tdiv 100)
  let mp := (5 * doy + 2).tdiv 153
  let d := doy - (153 * mp + 2).tdiv 5 + 1
  let m := if mp < 10 then mp + 3 else mp - 9
  (if m ≤ 2 then y + 1 else y, m, d)

/-- Minutes elapsed since the epoch for a broken-down datetime (the second
field does not participate: `timedelta(minutes=m)` arithmetic never changes
it). -/
def toTotalMinutes (dt : PyDateTime) : Int :=
  daysFromCivil dt.year dt.month dt.day * 1440 + dt.hour * 60 + dt.minute

/-- Python `dt - timedelta(minutes=m)`: subtract on the linear minute count
and convert back to a broken-down datetime; seconds are unchanged. -/
def dtSubMinutes (dt : PyDateTime) (m : Int) : PyDateTime :=
  let total := toTotalMinutes dt - m
  let days := total.ediv 1440
  let minOfDay := total.emod 1440
  let c := civilFromDays days
  ⟨c.1, c.2.1, c.2.2, minOfDay.ediv 60, minOfDay.emod 60, dt.second⟩

/-- Zero-pad the decimal rendering of `n` to `width` characters, sign
included, as CPython's `%0<width>d` does. -/
def padNum (width : Nat) (n : Int) : String :=
  let s := toString n.natAbs
  let body := String.mk (List.replicate (width - s.length - (if n < 0 then 1 else 0)) '0') ++ s
  (if n < 0 then "-" else "") ++ body

/-- One `strftime` directive, CPython semantics for the directives the
client's format string uses (`%Y` pads the year to four digits, the others
to two). -/
def strfDirective (dt : PyDateTime) : Char → String
  | 'Y' => padNum 4 dt.year
  | 'm' => padNum 2 dt.month
  | 'd' => padNum 2 dt.day
  | 'H' => padNum 2 dt.hour
  | 'M' => padNum 2 dt.minute
  | 'S' => padNum 2 dt.second
  | c => "%" ++ String.singleton c

/-- Interpreter for a `strftime` format string over its character list. -/
def strftimeAux (dt : PyDateTime) : List Char → String
  | [] => ""
  | '%' :: c :: rest => strfDirective dt c ++ strftimeAux dt rest
  | c :: rest => String.singleton c ++ strftimeAux dt rest

/-- Python `dt.strftime(fmt)` for the directives in `strfDirective`. -/
def strftime (dt : PyDateTime) (fmt : String) : String :=
  strftimeAux dt fmt.data

/-- Embedding of `dateutil.parser.parse` applied to a value read from a
JSON object: parsing a string delegates to the (abstract) parser `dparse`;
a missing value (`None`) or a non-string value raises `TypeError`, as the
library does. -/
def dateutil_parse (DT : Type) (dparse : String → DT) : Option PyVal → Except PyErr DT
  | some (.str s) => .ok (dparse s)
  | some _ => .error (.typeError "Parser must be a string or character stream")
  | Option.none => .error (.typeError "Parser must be a string or character stream, not NoneType")

/-- `ServerInfo`, the typed snapshot built from the `server` endpoint's JSON
object. `DT` is the (abstract) structured date-time type produced by
`dateutil.parser.parse`. -/
structure ServerInfo (DT : Type) where
  data : PyDict
  version : Option PyVal
  version_major : Option PyVal
  version_minor : Option PyVal
  build_number : Option PyVal
  internal_id : Option PyVal
  current_time : DT
  start_time : DT
  build_date : DT

/-- Embedding of `ServerInfo.__init__`: read the five plain fields with
`data.get` (absent fields become `None`), and parse the three timestamp
fields with `dateutil.parser.parse`, in source order; a parse failure
aborts construction. -/
def ServerInfo.init (DT : Type) (dparse : String → DT) (data : PyDict) :
    Except PyErr (ServerInfo DT) := do
  let ct ← dateutil_parse DT dparse (dictGet data "currentTime")
  let st ← dateutil_parse DT dparse (dictGet data "startTime")
  let bd ← dateutil_parse DT dparse (dictGet data "buildDate")
  .ok { data := data
        version := dictGet data "version"
        version_major := dictGet data "versionMajor"
        version_minor := dictGet data "versionMinor"
        build_number := dictGet data "buildNumber"
        internal_id := dictGet data "internalId"
        current_time := ct
        start_time := st
        build_date := bd }

/-- Embedding of `Session.build_url`: join the base URL and the path
segments with `/`. -/
def build_url (base_url : String) (args : List String) : String :=
  String.intercalate "/" (base_url :: args)

/-- An HTTP GET request as the client composes it: the URL, the basic-auth
credentials, the `Accept` header, the optional combined locator expression,
and the query-string pairs. -/
structure Request where
  url : String
  authUser : Option String
  authPass : Option String
  accept : String
  locator : Option String
  query : List (String × String)
deriving DecidableEq, Repr

/-- The client object: connection configuration plus the two accumulated
mappings. -/
structure TeamCityRESTApiClient where
  username : Option String
  password : Option String
  host : Option String
  port : Int
  base_url : String
  locators : PyDict
  parameters : PyDict
deriving DecidableEq, Repr

/-- Python `a or b` on an optional string: `a` if it is truthy (present and
non-empty), else `b`. -/
def pyOrStr (a b : Option String) : Option String :=
  match a with
  | some s => if s = "" then b else some s
  | Option.none => b

/-- Python `'%s' % v` on an optional string, rendering `None` as the string
`None`. -/
def optStr : Option String → String
  | some s => s
  | Option.none => "None"

/-- Embedding of `TeamCityRESTApiClient.__init__`. The `os.getenv`
environment reads are passed in as `envUser`/`envPassword`/`envHost`
(absent variable = `Option.none`) and `envPort` (the already `int`-parsed
value of `TEAMCITY_PORT`, with the source's `'0'` default giving `0` when
the variable is unset). The port is the first truthy value of
`port or int(getenv) or 80`, where `0` is falsy. -/
def TeamCityRESTApiClient.init (username password server : Option String)
    (port : Option Int) (envUser envPassword envHost : Option String)
    (envPort : Option Int) : TeamCityRESTApiClient :=
  let u := pyOrStr username envUser
  let pw := pyOrStr password envPassword
  let h := pyOrStr server envHost
  let envP : Int := envPort.getD 0
  let prt : Int :=
    match port with
    | some p => if p = 0 then (if envP = 0 then 80 else envP) else p
    | Option.none => if envP = 0 then 80 else envP
  { username := u
    password := pw
    host := h
    port := prt
    base_url := "http://" ++ optStr h ++ ":" ++ toString prt ++ "/httpAuth/app/rest"
    locators := []
    parameters := [] }

namespace TeamCityRESTApiClient

/-- Embedding of `set_count`: store under `count` in the parameter mapping. -/
def set_count (self : TeamCityRESTApiClient) (count : PyVal) : TeamCityRESTApiClient :=
  { self with parameters := dictSet self.parameters "count" count }

/-- Embedding of `set_running`. -/
def set_running (self : TeamCityRESTApiClient) (running : PyVal) : TeamCityRESTApiClient :=
  { self with locators := dictSet self.locators "running" running }

/-- Embedding of `set_build_type`. -/
def set_build_type (self : TeamCityRESTApiClient) (bt : PyVal) : TeamCityRESTApiClient :=
  { self with locators := dictSet self.locators "buildType" bt }

/-- Embedding of `set_tags`. -/
def set_tags (self : TeamCityRESTApiClient) (tags : PyVal) : TeamCityRESTApiClient :=
  { self with locators := dictSet self.locators "tags" tags }

/-- Embedding of `set_status`. -/
def set_status (self : TeamCityRESTApiClient) (status : PyVal) : TeamCityRESTApiClient :=
  { self with locators := dictSet self.locators "status" status }

/-- Embedding of `set_user`. -/
def set_user (self : TeamCityRESTApiClient) (user : PyVal) : TeamCityRESTApiClient :=
  { self with locators := dictSet self.locators "user" user }

/-- Embedding of `set_personal`. -/
def set_personal (self : TeamCityRESTApiClient) (personal : PyVal) : TeamCityRESTApiClient :=
  { self with locators := dictSet self.locators "personal" personal }

/-- Embedding of `set_canceled`. -/
def set_canceled (self : TeamCityRESTApiClient) (canceled : PyVal) : TeamCityRESTApiClient :=
  { self with locators := dictSet self.locators "canceled" canceled }

/-- Embedding of `set_pinned`. -/
def set_pinned (self : TeamCityRESTApiClient) (pinned : PyVal) : TeamCityRESTApiClient :=
  { self with locators := dictSet self.locators "pinned" pinned }

/-- Embedding of `set_branch`. -/
def set_branch (self : TeamCityRESTApiClient) (branch : PyVal) : TeamCityRESTApiClient :=
  { self with locators := dictSet self.locators "branch" branch }

/-- Embedding of `set_agent_name`. -/
def set_agent_name (self : TeamCityRESTApiClient) (agent_name : PyVal) : TeamCityRESTApiClient :=
  { self with locators := dictSet self.locators "agentName" agent_name }

/-- Embedding of `set_since_build`. -/
def set_since_build (self : TeamCityRESTApiClient) (since_build : PyVal) : TeamCityRESTApiClient :=
  { self with locators := dictSet self.locators "sinceBuild" since_build }

/-- Embedding of `set_since_date`: `datetime.now()` is passed in as `now`;
the stored locator is `(now - minutes).strftime('%Y%m%dT%H%M%S') + '-0500'`,
with the hardcoded `-0500` offset from the source. -/
def set_since_date (self : TeamCityRESTApiClient) (now : PyDateTime) (minutes : Int) :
    TeamCityRESTApiClient :=
  let minutes_ago := dtSubMinutes now minutes
  { self with
    locators := dictSet self.locators "sinceDate"
      (.str (strftime minutes_ago "%Y%m%dT%H%M%S" ++ "-0500")) }

/-- Embedding of `set_start`: store under `start` in the parameter mapping. -/
def set_start (self : TeamCityRESTApiClient) (start : PyVal) : TeamCityRESTApiClient :=
  { self with parameters := dictSet self.parameters "start" start }

/-- Embedding of `set_lookup_limit`. -/
def set_lookup_limit (self : TeamCityRESTApiClient) (lookup_limit : PyVal) : TeamCityRESTApiClient :=
  { self with locators := dictSet self.locators "lookupLimit" lookup_limit }

end TeamCityRESTApiClient

/-- Modelled from the spec: the combined locator expression. The spec's
glossary defines a locator as "combining multiple named criteria with
comma-separated key:value syntax", in the insertion order of the mapping. -/
def combineLocators (m : PyDict) : String :=
  String.intercalate "," (m.map (fun kv => kv.1 ++ ":" ++ pyStr kv.2))

/-- Embedding of `TeamCityRESTApiClient._get`: compose a GET request at
`url` with basic-auth credentials and an `Accept: application/json` header
and hand it to the transport. -/
def TeamCityRESTApiClient.get_http (self : TeamCityRESTApiClient) (url : String) : Request :=
  { url := url
    authUser := self.username
    authPass := self.password
    accept := "application/json"
    locator := Option.none
    query := [] }

/-- Modelled from the spec: the `set_resource` method is invoked by every
endpoint method of `TeamCityRESTApiClient` but its definition is absent
from the sources (only its callers appear). Per the spec's Endpoint
Dispatcher contract, the dispatch composes the full URL from the base URL
and the resource path, merges any accumulated locators into the request as
a single comma-joined expression where the endpoint semantically supports
filtering (the builds and changes collections), carries the accumulated
parameters as query-string pairs, and issues a synchronous GET with HTTP
basic authentication and an `Accept: application/json` header, returning
the decoded body. The `filtering` flag records, per call site, whether the
spec assigns filtering semantics to that endpoint; the transport `t`
abstracts the HTTP GET plus JSON decoding. -/
def TeamCityRESTApiClient.set_resource (self : TeamCityRESTApiClient) (α : Type)
    (t : Request → α) (resource : String) (filtering : Bool) : α :=
  t { url := build_url self.base_url [resource]
      authUser := self.username
      authPass := self.password
      accept := "application/json"
      locator := if filtering && !self.locators.isEmpty
                 then some (combineLocators self.locators) else Option.none
      query := self.parameters.map (fun kv => (kv.1, pyStr kv.2)) }

namespace TeamCityRESTApiClient

/-- Embedding of `get_server_info`: build the `server` URL, issue the GET
via `_get`, decode the body, and construct a `ServerInfo` from it. -/
def get_server_info (self : TeamCityRESTApiClient) (DT : Type) (dparse : String → DT)
    (t : Request → PyDict) : Except PyErr (ServerInfo DT) :=
  let url := build_url self.base_url ["server"]
  let data := t (self.get_http url)
  ServerInfo.init DT dparse data

/-- Embedding of `get_all_plugins`. -/
def get_all_plugins (self : TeamCityRESTApiClient) (α : Type) (t : Request → α) : α :=
  self.set_resource α t "server/plugins" false

/-- Embedding of `get_all_builds`: `set_start`, then `set_count`, then
dispatch on `builds/` (a filter-supporting collection). -/
def get_all_builds (self : TeamCityRESTApiClient) (α : Type) (t : Request → α)
    (start count : PyVal) : α :=
  let c := self.set_start start
  let c := c.set_count count
  c.set_resource α t "builds/" true

/-- Embedding of `get_all_builds_by_build_type_id`: `set_count`, then
`set_start`, then dispatch on `buildTypes/id:<btId>/builds/`. -/
def get_all_builds_by_build_type_id (self : TeamCityRESTApiClient) (α : Type)
    (t : Request → α) (btId : PyVal) (start count : PyVal) : α :=
  let c := self.set_count count
  let c := c.set_start start
  c.set_resource α t ("buildTypes/id:" ++ pyStr btId ++ "/builds/") true

/-- Embedding of `get_build_by_build_id` (single-resource fetch). -/
def get_build_by_build_id (self : TeamCityRESTApiClient) (α : Type) (t : Request → α)
    (bId : PyVal) : α :=
  self.set_resource α t ("builds/id:" ++ pyStr bId) false

/-- Embedding of `get_all_changes` (a filter-supporting collection). -/
def get_all_changes (self : TeamCityRESTApiClient) (α : Type) (t : Request → α) : α :=
  self.set_resource α t "changes" true

/-- Embedding of `get_change_by_change_id` (single-resource fetch). -/
def get_change_by_change_id (self : TeamCityRESTApiClient) (α : Type) (t : Request → α)
    (cId : PyVal) : α :=
  self.set_resource α t ("changes/id:" ++ pyStr cId) false

/-- Embedding of `get_changes_by_build_id`: store `'id:%s' % bId` under the
`build` key of the parameter mapping, then dispatch on `changes`. -/
def get_changes_by_build_id (self : TeamCityRESTApiClient) (α : Type) (t : Request → α)
    (bId : PyVal) : α :=
  let c := { self with
             parameters := dictSet self.parameters "build" (.str ("id:" ++ pyStr bId)) }
  c.set_resource α t "changes" true

/-- Embedding of `get_all_projects`. -/
def get_all_projects (self : TeamCityRESTApiClient) (α : Type) (t : Request → α) : α :=
  self.set_resource α t "projects" false

/-- Embedding of `get_project_by_project_id`. -/
def get_project_by_project_id (self : TeamCityRESTApiClient) (α : Type) (t : Request → α)
    (pId : PyVal) : α :=
  self.set_resource α t ("projects/id:" ++ pyStr pId) false

/-- Embedding of `get_agent_by_agent_id`: the resource segment is
`'agents/id:%d' % aId`, so the argument goes through the `%d` conversion,
which fails on non-numbers. -/
def get_agent_by_agent_id (self : TeamCityRESTApiClient) (α : Type) (t : Request → α)
    (aId : PyVal) : Except PyErr α :=
  match pyFormatD aId with
  | .ok s => .ok (self.set_resource α t ("agents/id:" ++ s) false)
  | .error e => .error e

end TeamCityRESTApiClient

/-- One call to a filter setter of the client, with its argument
(`set_since_date` additionally carries the `datetime.now()` it observes). -/
inductive FilterCall where
  | count (v : PyVal)
  | running (v : PyVal)
  | build_type (v : PyVal)
  | tags (v : PyVal)
  | status (v : PyVal)
  | user (v : PyVal)
  | personal (v : PyVal)
  | canceled (v : PyVal)
  | pinned (v : PyVal)
  | branch (v : PyVal)
  | agent_name (v : PyVal)
  | since_build (v : PyVal)
  | since_date (now : PyDateTime) (minutes : Int)
  | start (v : PyVal)
  | lookup_limit (v : PyVal)
deriving DecidableEq, Repr

/-- Execute one setter call on the client. -/
def applyCall (c : TeamCityRESTApiClient) : FilterCall → TeamCityRESTApiClient
  | .count v => c.set_count v
  | .running v => c.set_running v
  | .build_type v => c.set_build_type v
  | .tags v => c.set_tags v
  | .status v => c.set_status v
  | .user v => c.set_user v
  | .personal v => c.set_personal v
  | .canceled v => c.set_canceled v
  | .pinned v => c.set_pinned v
  | .branch v => c.set_branch v
  | .agent_name v => c.set_agent_name v
  | .since_build v => c.set_since_build v
  | .since_date now m => c.set_since_date now m
  | .start v => c.set_start v
  | .lookup_limit v => c.set_lookup_limit v

/-- Execute a sequence of setter calls on the client, left to right. -/
def applyCalls (c : TeamCityRESTApiClient) (calls : List FilterCall) : TeamCityRESTApiClient :=
  calls.foldl applyCall c

/-- Whether a setter call is one of the two pagination setters (`set_count`
and `set_start`). -/
def isParamCall : FilterCall → Bool
  | .count _ => true
  | .start _ => true
  | .running _ => false
  | .build_type _ => false
  | .tags _ => false
  | .status _ => false
  | .user _ => false
  | .personal _ => false
  | .canceled _ => false
  | .pinned _ => false
  | .branch _ => false
  | .agent_name _ => false
  | .since_build _ => false
  | .since_date _ _ => false
  | .lookup_limit _ => false

/-- The locator-mapping entry a setter call stores, if any. -/
def locEntry : FilterCall → Option (String × PyVal)
  | .count _ => Option.none
  | .running v => some ("running", v)
  | .build_type v => some ("buildType", v)
  | .tags v => some ("tags", v)
  | .status v => some ("status", v)
  | .user v => some ("user", v)
  | .personal v => some ("personal", v)
  | .canceled v => some ("canceled", v)
  | .pinned v => some ("pinned", v)
  | .branch v => some ("branch", v)
  | .agent_name v => some ("agentName", v)
  | .since_build v => some ("sinceBuild", v)
  | .since_date now m =>
      some ("sinceDate", .str (strftime (dtSubMinutes now m) "%Y%m%dT%H%M%S" ++ "-0500"))
  | .start _ => Option.none
  | .lookup_limit v => some ("lookupLimit", v)

/-- The parameter-mapping entry a setter call stores, if any. -/
def paramEntry : FilterCall → Option (String × PyVal)
  | .count v => some ("count", v)
  | .start v => some ("start", v)
  | .running _ => Option.none
  | .build_type _ => Option.none
  | .tags _ => Option.none
  | .status _ => Option.none
  | .user _ => Option.none
  | .personal _ => Option.none
  | .canceled _ => Option.none
  | .pinned _ => Option.none
  | .branch _ => Option.none
  | .agent_name _ => Option.none
  | .since_build _ => Option.none
  | .since_date _ _ => Option.none
  | .lookup_limit _ => Option.none

/-- Fold a list of entries into a dict with Python assignment semantics. -/
def foldSet (m : PyDict) (es : List (String × PyVal)) : PyDict :=
  es.foldl (fun acc kv => dictSet acc kv.1 kv.2) m

/-- Keys in first-occurrence order, later duplicates dropped. -/
def dedupFirst : List String → List String
  | [] => []
  | k :: ks => k :: (dedupFirst ks).filter (fun x => x != k)

/-- The value of the last entry in `es` carrying key `k`, if any. -/
def lastVal : List (String × PyVal) → String → Option PyVal
  | [], _ => Option.none
  | kv :: tl, k =>
    match lastVal tl k with
    | some v => some v
    | Option.none => if kv.1 = k then some kv.2 else Option.none

/-- Stated from the claim's words, for comparison with the source's
`strftime`-based computation: the time `now` minus `minutes` minutes,
rendered as `YYYYMMDD`, a literal `T`, `HHMMSS` (all fields zero-padded),
followed by the fixed UTC-offset suffix `-0500`. -/
def sinceDate_spec (now : PyDateTime) (minutes : Int) : String :=
  let t := dtSubMinutes now minutes
  padNum 4 t.year ++ padNum 2 t.month ++ padNum 2 t.day ++ "T" ++
    padNum 2 t.hour ++ padNum 2 t.minute ++ padNum 2 t.second ++ "-0500"

/-- The `ServerInfo` attribute that corresponds to one of the five plain
(non-timestamp) JSON fields. -/
def stringAttr (DT : Type) (info : ServerInfo DT) : String → Option PyVal
  | "version" => info.version
  | "versionMajor" => info.version_major
  | "versionMinor" => info.version_minor
  | "buildNumber" => info.build_number
  | "internalId" => info.internal_id
  | _ => Option.none

theorem dictGet_dictSet_self (m : PyDict) (k : String) (v : PyVal) :
    dictGet (dictSet m k v) k = some v := by
  induction m with
  | nil => simp [dictSet, dictGet]
  | cons kv tl ih =>
    by_cases h : kv.1 = k
    · simp [dictSet, dictGet, h]
    · simp [dictSet, dictGet, h, ih]

theorem dictGet_dictSet_ne (m : PyDict) (k k' : String) (v : PyVal) (h : k ≠ k') :
    dictGet (dictSet m k v) k' = dictGet m k' := by
  induction m with
  | nil => simp [dictSet, dictGet, h]
  | cons kv tl ih =>
    by_cases hk : kv.1 = k
    · simp [dictSet, dictGet, hk, h]
    · by_cases hk' : kv.1 = k'
      · simp [dictSet, dictGet, hk, hk', Ne.symm h]
      · simp [dictSet, dictGet, hk, hk', ih]

theorem dictSet_keys (m : PyDict) (k : String) (v : PyVal) :
    (dictSet m k v).map Prod.fst =
      if k ∈ m.map Prod.fst then m.map Prod.fst else m.map Prod.fst ++ [k] := by
  induction m with
  | nil => simp [dictSet]
  | cons kv tl ih =>
    by_cases h : kv.1 = k
    · simp [dictSet, h]
    · by_cases hm : k ∈ tl.map Prod.fst
      · simp [dictSet, h, ih, hm, Ne.symm h]
      · simp [dictSet, h, ih, hm, Ne.symm h]

theorem foldSet_get (es : List (String × PyVal)) (m : PyDict) (k : String) :
    dictGet (foldSet m es) k =
      match lastVal es k with
      | some v => some v
      | Option.none => dictGet m k := by
  induction es generalizing m with
  | nil => simp [foldSet, lastVal]
  | cons kv tl ih =>
    have hstep : foldSet m (kv :: tl) = foldSet (dictSet m kv.1 kv.2) tl := rfl
    rw [hstep, ih]
    cases h : lastVal tl k with
    | some v => simp [lastVal, h]
    | none =>
      by_cases hk : kv.1 = k
      · subst hk; simp [lastVal, h, dictGet_dictSet_self]
      · simp [lastVal, h, hk, dictGet_dictSet_ne _ _ _ _ hk]

theorem foldSet_keys (es : List (String × PyVal)) (m : PyDict) :
    (foldSet m es).map Prod.fst =
      m.map Prod.fst ++
        (dedupFirst (es.map Prod.fst)).filter (fun x => decide (x ∉ m.map Prod.fst)) := by
  induction es generalizing m with
  | nil => simp [foldSet, dedupFirst]
  | cons kv tl ih =>
    have hstep : foldSet m (kv :: tl) = foldSet (dictSet m kv.1 kv.2) tl := rfl
    rw [hstep, ih, dictSet_keys]
    by_cases hk : kv.1 ∈ m.map Prod.fst
    · rw [if_pos hk]
      simp only [dedupFirst, List.map_cons]
      rw [List.filter_cons_of_neg (by simp [hk]), List.filter_filter]
      congr 1
      apply List.filter_congr
      intro x _
      by_cases hx : x ∈ List.map Prod.fst m
      · simp [hx]
      · have hne : x ≠ kv.1 := fun he => hx (he ▸ hk)
        simp [hx, hne]
    · rw [if_neg hk]
      simp only [dedupFirst, List.map_cons]
      rw [List.filter_cons_of_pos (by simp [hk]), List.filter_filter, List.append_assoc,
        List.singleton_append]
      congr 2
      apply List.filter_congr
      intro x _
      by_cases hx1 : x = kv.1
      · subst hx1; simp
      · by_cases hx2 : x ∈ List.map Prod.fst m <;> simp [hx1, hx2]

theorem dedupFirst_nodup (ks : List String) : (dedupFirst ks).Nodup := by
  induction ks with
  | nil => simp [dedupFirst]
  | cons k tl ih =>
    simp only [dedupFirst, List.nodup_cons]
    refine ⟨fun hmem => ?_, ih.filter _⟩
    have := List.of_mem_filter hmem
    simp at this

theorem applyCalls_locators (calls : List FilterCall) (c : TeamCityRESTApiClient) :
    (applyCalls c calls).locators = foldSet c.locators (calls.filterMap locEntry) := by
  induction calls generalizing c with
  | nil => simp [applyCalls, foldSet]
  | cons call tl ih =>
    have hstep : applyCalls c (call :: tl) = applyCalls (applyCall c call) tl := rfl
    rw [hstep]
    cases call <;>
      simp [ih, applyCall, locEntry, foldSet,
        TeamCityRESTApiClient.set_count, TeamCityRESTApiClient.set_running,
        TeamCityRESTApiClient.set_build_type, TeamCityRESTApiClient.set_tags,
        TeamCityRESTApiClient.set_status, TeamCityRESTApiClient.set_user,
        TeamCityRESTApiClient.set_personal, TeamCityRESTApiClient.set_canceled,
        TeamCityRESTApiClient.set_pinned, TeamCityRESTApiClient.set_branch,
        TeamCityRESTApiClient.set_agent_name, TeamCityRESTApiClient.set_since_build,
        TeamCityRESTApiClient.set_since_date, TeamCityRESTApiClient.set_start,
        TeamCityRESTApiClient.set_lookup_limit]

theorem applyCalls_parameters (calls : List FilterCall) (c : TeamCityRESTApiClient) :
    (applyCalls c calls).parameters = foldSet c.parameters (calls.filterMap paramEntry) := by
  induction calls generalizing c with
  | nil => simp [applyCalls, foldSet]
  | cons call tl ih =>
    have hstep : applyCalls c (call :: tl) = applyCalls (applyCall c call) tl := rfl
    rw [hstep]
    cases call <;>
      simp [ih, applyCall, paramEntry, foldSet,
        TeamCityRESTApiClient.set_count, TeamCityRESTApiClient.set_running,
        TeamCityRESTApiClient.set_build_type, TeamCityRESTApiClient.set_tags,
        TeamCityRESTApiClient.set_status, TeamCityRESTApiClient.set_user,
        TeamCityRESTApiClient.set_personal, TeamCityRESTApiClient.set_canceled,
        TeamCityRESTApiClient.set_pinned, TeamCityRESTApiClient.set_branch,
        TeamCityRESTApiClient.set_agent_name, TeamCityRESTApiClient.set_since_build,
        TeamCityRESTApiClient.set_since_date, TeamCityRESTApiClient.set_start,
        TeamCityRESTApiClient.set_lookup_limit]

theorem foldSet_nil (m : PyDict) : foldSet m [] = m := rfl

theorem filter_param_filterMap (calls : List FilterCall) :
    (calls.filter isParamCall).filterMap paramEntry = calls.filterMap paramEntry := by
  induction calls with
  | nil => rfl
  | cons call tl ih => cases call <;> simp [isParamCall, paramEntry, ih]

/-- Whether a setter call is one of the locator setters. -/
def isLocCall (f : FilterCall) : Bool := !isParamCall f

theorem filter_loc_filterMap (calls : List FilterCall) :
    (calls.filter isLocCall).filterMap locEntry = calls.filterMap locEntry := by
  induction calls with
  | nil => rfl
  | cons call tl ih =>
    rw [List.filter_cons]
    cases call <;> simp only [isLocCall, isParamCall, Bool.not_true, Bool.not_false,
      Bool.false_eq_true, if_false, if_true, List.filterMap_cons, locEntry, ih]

/-- C3: for every finite sequence of locator-setter calls on one client,
the combined locator expression contains exactly the set of keys that were
set, each key exactly once, joined by commas in the insertion order of the
setter calls, and for any key set multiple times it carries the most
recently set value. -/
theorem locator_accumulation_c3 (calls : List FilterCall)
    (username password server : Option String) (port : Option Int)
    (envUser envPassword envHost : Option String) (envPort : Option Int) :
    let c := applyCalls (TeamCityRESTApiClient.init username password server port
      envUser envPassword envHost envPort) calls
    let es := calls.filterMap locEntry
    c.locators.map Prod.fst = dedupFirst (es.map Prod.fst)
    ∧ (c.locators.map Prod.fst).Nodup
    ∧ (∀ k, dictGet c.locators k = lastVal es k)
    ∧ combineLocators c.locators =
        String.intercalate "," (c.locators.map (fun kv => kv.1 ++ ":" ++ pyStr kv.2)) := by
  intro c es
  have hc : c.locators = foldSet [] es := applyCalls_locators calls _
  have hkeys : c.locators.map Prod.fst = dedupFirst (es.map Prod.fst) := by
    rw [hc, foldSet_keys]
    simp
  refine ⟨hkeys, ?_, fun k => ?_, rfl⟩
  · rw [hkeys]
    exact dedupFirst_nodup _
  · rw [hc, foldSet_get]
    cases lastVal es k <;> simp [dictGet]

/-- C4: `set_count` and `set_start` store their values only in the
parameter mapping and never in the locator mapping, and every other filter
setter stores its value only in the locator mapping and never in the
parameter mapping, for every sequence of setter calls in any order. -/
theorem pagination_routing_c4 (calls : List FilterCall) (c : TeamCityRESTApiClient) :
    (applyCalls c calls).parameters = (applyCalls c (calls.filter isParamCall)).parameters
    ∧ (applyCalls c calls).locators = (applyCalls c (calls.filter isLocCall)).locators
    ∧ (∀ v, (c.set_count v).parameters = dictSet c.parameters "count" v
          ∧ (c.set_count v).locators = c.locators)
    ∧ (∀ v, (c.set_start v).parameters = dictSet c.parameters "start" v
          ∧ (c.set_start v).locators = c.locators)
    ∧ (∀ v, (c.set_running v).locators = dictSet c.locators "running" v
          ∧ (c.set_running v).parameters = c.parameters)
    ∧ (∀ v, (c.set_build_type v).locators = dictSet c.locators "buildType" v
          ∧ (c.set_build_type v).parameters = c.parameters)
    ∧ (∀ v, (c.set_tags v).locators = dictSet c.locators "tags" v
          ∧ (c.set_tags v).parameters = c.parameters)
    ∧ (∀ v, (c.set_status v).locators = dictSet c.locators "status" v
          ∧ (c.set_status v).parameters = c.parameters)
    ∧ (∀ v, (c.set_user v).locators = dictSet c.locators "user" v
          ∧ (c.set_user v).parameters = c.parameters)
    ∧ (∀ v, (c.set_personal v).locators = dictSet c.locators "personal" v
          ∧ (c.set_personal v).parameters = c.parameters)
    ∧ (∀ v, (c.set_canceled v).locators = dictSet c.locators "canceled" v
          ∧ (c.set_canceled v).parameters = c.parameters)
    ∧ (∀ v, (c.set_pinned v).locators = dictSet c.locators "pinned" v
          ∧ (c.set_pinned v).parameters = c.parameters)
    ∧ (∀ v, (c.set_branch v).locators = dictSet c.locators "branch" v
          ∧ (c.set_branch v).parameters = c.parameters)
    ∧ (∀ v, (c.set_agent_name v).locators = dictSet c.locators "agentName" v
          ∧ (c.set_agent_name v).parameters = c.parameters)
    ∧ (∀ v, (c.set_since_build v).locators = dictSet c.locators "sinceBuild" v
          ∧ (c.set_since_build v).parameters = c.parameters)
    ∧ (∀ now m, (c.set_since_date now m).locators = dictSet c.locators "sinceDate"
            (.str (strftime (dtSubMinutes now m) "%Y%m%dT%H%M%S" ++ "-0500"))
          ∧ (c.set_since_date now m).parameters = c.parameters)
    ∧ (∀ v, (c.set_lookup_limit v).locators = dictSet c.locators "lookupLimit" v
          ∧ (c.set_lookup_limit v).parameters = c.parameters) := by
  refine ⟨?_, ?_, fun v => ⟨rfl, rfl⟩, fun v => ⟨rfl, rfl⟩, fun v => ⟨rfl, rfl⟩,
    fun v => ⟨rfl, rfl⟩, fun v => ⟨rfl, rfl⟩, fun v => ⟨rfl, rfl⟩, fun v => ⟨rfl, rfl⟩,
    fun v => ⟨rfl, rfl⟩, fun v => ⟨rfl, rfl⟩, fun v => ⟨rfl, rfl⟩, fun v => ⟨rfl, rfl⟩,
    fun v => ⟨rfl, rfl⟩, fun v => ⟨rfl, rfl⟩, fun now m => ⟨rfl, rfl⟩, fun v => ⟨rfl, rfl⟩⟩
  · rw [applyCalls_parameters, applyCalls_parameters, filter_param_filterMap]
  · rw [applyCalls_locators, applyCalls_locators, filter_loc_filterMap]

/-- C7: for every minute count and current time, `set_since_date` stores
under the `sinceDate` locator key exactly the string obtained by rendering
`now - minutes` as `YYYYMMDD` `T` `HHMMSS` followed by the fixed offset
suffix `-0500` (the embedded computation takes no timezone input, so the
result is independent of any local timezone), and touches no parameter. -/
theorem set_since_date_c7 (c : TeamCityRESTApiClient) (now : PyDateTime) (minutes : Int) :
    dictGet (c.set_since_date now minutes).locators "sinceDate" =
      some (.str (sinceDate_spec now minutes))
    ∧ (c.set_since_date now minutes).parameters = c.parameters := by
  constructor
  · have h : dictGet (c.set_since_date now minutes).locators "sinceDate" =
        some (.str (strftime (dtSubMinutes now minutes) "%Y%m%dT%H%M%S" ++ "-0500")) :=
      dictGet_dictSet_self _ _ _
    rw [h]
    have hfmt : ∀ dt : PyDateTime, strftime dt "%Y%m%dT%H%M%S" =
        padNum 4 dt.year ++ (padNum 2 dt.month ++ (padNum 2 dt.day ++ ("T" ++
          (padNum 2 dt.hour ++ (padNum 2 dt.minute ++ (padNum 2 dt.second ++ "")))))) := by
      intro dt
      rfl
    rw [hfmt, sinceDate_spec]
    simp [String.append_assoc]
  · rfl

/-- C6: constructing `ServerInfo` from a JSON object carrying all eight
known fields populates all eight attributes, the three timestamp attributes
being equal to the result of independently parsing the original strings. -/
theorem server_info_fields_c6 (DT : Type) (dparse : String → DT) (data : PyDict)
    (v1 v2 v3 v4 v5 : PyVal) (s6 s7 s8 : String)
    (h1 : dictGet data "version" = some v1)
    (h2 : dictGet data "versionMajor" = some v2)
    (h3 : dictGet data "versionMinor" = some v3)
    (h4 : dictGet data "buildNumber" = some v4)
    (h5 : dictGet data "internalId" = some v5)
    (h6 : dictGet data "currentTime" = some (.str s6))
    (h7 : dictGet data "startTime" = some (.str s7))
    (h8 : dictGet data "buildDate" = some (.str s8)) :
    ServerInfo.init DT dparse data = .ok
      { data := data
        version := some v1
        version_major := some v2
        version_minor := some v3
        build_number := some v4
        internal_id := some v5
        current_time := dparse s6
        start_time := dparse s7
        build_date := dparse s8 } := by
  rw [ServerInfo.init, h1, h2, h3, h4, h5, h6, h7, h8]
  rfl

/-- Witness for C6 at a concrete eight-field JSON object. -/
theorem server_info_fields_c6_witness :
    ServerInfo.init String id
      [("version", .str "9.1.6"), ("versionMajor", .int 9), ("versionMinor", .int 1),
       ("buildNumber", .str "37459"), ("internalId", .str "id1"),
       ("currentTime", .str "20260101T000000-0500"),
       ("startTime", .str "20251231T000000-0500"),
       ("buildDate", .str "20251201T000000-0500")] = .ok
      { data := [("version", .str "9.1.6"), ("versionMajor", .int 9), ("versionMinor", .int 1),
                 ("buildNumber", .str "37459"), ("internalId", .str "id1"),
                 ("currentTime", .str "20260101T000000-0500"),
                 ("startTime", .str "20251231T000000-0500"),
                 ("buildDate", .str "20251201T000000-0500")]
        version := some (.str "9.1.6")
        version_major := some (.int 9)
        version_minor := some (.int 1)
        build_number := some (.str "37459")
        internal_id := some (.str "id1")
        current_time := id "20260101T000000-0500"
        start_time := id "20251231T000000-0500"
        build_date := id "20251201T000000-0500" } :=
  server_info_fields_c6 String id _ _ _ _ _ _ _ _ _
    rfl rfl rfl rfl rfl rfl rfl rfl

theorem exceptBind_ok {α β : Type} (x : α) (f : α → Except PyErr β) :
    (Except.ok x >>= f) = f x := rfl

theorem exceptBind_error {α β : Type} (e : PyErr) (f : α → Except PyErr β) :
    ((Except.error e : Except PyErr α) >>= f) = Except.error e := rfl

theorem init_ok_timestamps (DT : Type) (dparse : String → DT) (data : PyDict)
    (info : ServerInfo DT) (h : ServerInfo.init DT dparse data = .ok info) :
    (∃ s, dictGet data "currentTime" = some (.str s))
    ∧ (∃ s, dictGet data "startTime" = some (.str s))
    ∧ (∃ s, dictGet data "buildDate" = some (.str s)) := by
  rw [ServerInfo.init] at h
  cases hc : dictGet data "currentTime" with
  | none => rw [hc] at h; exact absurd h (by simp [dateutil_parse, exceptBind_ok, exceptBind_error])
  | some vc =>
    cases vc with
    | int n => rw [hc] at h; exact absurd h (by simp [dateutil_parse, exceptBind_ok, exceptBind_error])
    | none => rw [hc] at h; exact absurd h (by simp [dateutil_parse, exceptBind_ok, exceptBind_error])
    | str sc =>
      rw [hc] at h
      cases hs : dictGet data "startTime" with
      | none => rw [hs] at h; exact absurd h (by simp [dateutil_parse, exceptBind_ok, exceptBind_error])
      | some vs =>
        cases vs with
        | int n => rw [hs] at h; exact absurd h (by simp [dateutil_parse, exceptBind_ok, exceptBind_error])
        | none => rw [hs] at h; exact absurd h (by simp [dateutil_parse, exceptBind_ok, exceptBind_error])
        | str ss =>
          rw [hs] at h
          cases hb : dictGet data "buildDate" with
          | none => rw [hb] at h; exact absurd h (by simp [dateutil_parse, exceptBind_ok, exceptBind_error])
          | some vb =>
            cases vb with
            | int n => rw [hb] at h; exact absurd h (by simp [dateutil_parse, exceptBind_ok, exceptBind_error])
            | none => rw [hb] at h; exact absurd h (by simp [dateutil_parse, exceptBind_ok, exceptBind_error])
            | str sb => exact ⟨⟨sc, rfl⟩, ⟨ss, rfl⟩, ⟨sb, rfl⟩⟩

/-- C10: `ServerInfo` construction is asymmetric on missing fields: with the
three timestamp fields present (as strings), an object missing one of the
five plain string fields still constructs, the corresponding attribute
being `None`; an object missing one of the three timestamp fields makes
construction raise. -/
theorem server_info_missing_c10 (DT : Type) (dparse : String → DT) (data : PyDict) :
    (∀ k, k ∈ ["version", "versionMajor", "versionMinor", "buildNumber", "internalId"] →
      dictGet data k = Option.none →
      (∃ s, dictGet data "currentTime" = some (.str s)) →
      (∃ s, dictGet data "startTime" = some (.str s)) →
      (∃ s, dictGet data "buildDate" = some (.str s)) →
      ∃ info, ServerInfo.init DT dparse data = .ok info ∧ stringAttr DT info k = Option.none)
    ∧ (∀ k, k ∈ ["currentTime", "startTime", "buildDate"] →
      dictGet data k = Option.none →
      ∃ e, ServerInfo.init DT dparse data = .error e) := by
  constructor
  · rintro k hk hnone ⟨s6, h6⟩ ⟨s7, h7⟩ ⟨s8, h8⟩
    refine ⟨_, by rw [ServerInfo.init, h6, h7, h8]; rfl, ?_⟩
    simp only [List.mem_cons, List.mem_singleton, List.not_mem_nil, or_false] at hk
    rcases hk with rfl | rfl | rfl | rfl | rfl <;> simpa [stringAttr] using hnone
  · intro k hk hnone
    cases hres : ServerInfo.init DT dparse data with
    | error e => exact ⟨e, rfl⟩
    | ok info =>
      exfalso
      obtain ⟨⟨s6, h6⟩, ⟨s7, h7⟩, ⟨s8, h8⟩⟩ := init_ok_timestamps DT dparse data info hres
      simp only [List.mem_cons, List.mem_singleton, List.not_mem_nil, or_false] at hk
      rcases hk with rfl | rfl | rfl
      · rw [hnone] at h6; cases h6
      · rw [hnone] at h7; cases h7
      · rw [hnone] at h8; cases h8

/-- Witness for C10: a concrete object missing `version` (timestamps
present) constructs with a `None` attribute, and a concrete object missing
`currentTime` makes construction raise. -/
theorem server_info_missing_c10_witness :
    (∃ info, ServerInfo.init String id
        [("currentTime", .str "a"), ("startTime", .str "b"), ("buildDate", .str "c")] = .ok info
      ∧ stringAttr String info "version" = Option.none)
    ∧ (∃ e, ServerInfo.init String id [("version", .str "9.1.6")] = .error e) := by
  constructor
  · exact (server_info_missing_c10 String id
      [("currentTime", .str "a"), ("startTime", .str "b"), ("buildDate", .str "c")]).1
      "version" (by simp) rfl ⟨"a", rfl⟩ ⟨"b", rfl⟩ ⟨"c", rfl⟩
  · exact (server_info_missing_c10 String id [("version", .str "9.1.6")]).2
      "currentTime" (by simp) rfl

/-- C8 counterexample: with host `h` and port `0` supplied (and no
environment variables set), the constructed base URL is
`http://h:80/httpAuth/app/rest`, not `http://h:0/httpAuth/app/rest`: a
supplied port of `0` is falsy in the source's `port or int(getenv) or 80`
chain, so the claim's universal statement over every port fails at `0`. -/
theorem base_url_c8_counterexample :
    (TeamCityRESTApiClient.init (some "user") (some "secret") (some "h") (some 0)
        Option.none Option.none Option.none Option.none).base_url
      = "http://h:80/httpAuth/app/rest"
    ∧ (TeamCityRESTApiClient.init (some "user") (some "secret") (some "h") (some 0)
        Option.none Option.none Option.none Option.none).base_url
      ≠ "http://h:0/httpAuth/app/rest" := by
  refine ⟨rfl, ?_⟩
  decide

/-- C8 (amended): for every non-empty host and nonzero supplied port the
base URL is exactly `http://<host>:<port>/httpAuth/app/rest`, and when no
port is supplied (neither as an argument nor through the port environment
variable) the port defaults to `80`. -/
theorem base_url_c8_amended (username password : Option String) (h : String) (p : Int)
    (envUser envPassword envHost : Option String) (envPort : Option Int)
    (hh : h ≠ "") (hp : p ≠ 0) :
    (TeamCityRESTApiClient.init username password (some h) (some p)
        envUser envPassword envHost envPort).base_url
      = "http://" ++ h ++ ":" ++ toString p ++ "/httpAuth/app/rest"
    ∧ (TeamCityRESTApiClient.init username password (some h) Option.none
        envUser envPassword envHost Option.none).port = 80
    ∧ (TeamCityRESTApiClient.init username password (some h) Option.none
        envUser envPassword envHost Option.none).base_url
      = "http://" ++ h ++ ":" ++ toString (80 : Int) ++ "/httpAuth/app/rest" := by
  refine ⟨?_, rfl, ?_⟩ <;>
    simp [TeamCityRESTApiClient.init, pyOrStr, optStr, hh, hp]

/-- Witness for the amended C8 at a concrete host and port. -/
theorem base_url_c8_amended_witness :
    ("teamcity.example.com" : String) ≠ "" ∧ (8111 : Int) ≠ 0 ∧
    (TeamCityRESTApiClient.init (some "u") (some "pw") (some "teamcity.example.com")
        (some 8111) Option.none Option.none Option.none Option.none).base_url
      = "http://" ++ "teamcity.example.com" ++ ":" ++ toString (8111 : Int) ++
        "/httpAuth/app/rest" := by
  refine ⟨by decide, by decide, ?_⟩
  exact (base_url_c8_amended (some "u") (some "pw") "teamcity.example.com" 8111
    Option.none Option.none Option.none Option.none (by decide) (by decide)).1

/-- C1: each endpoint method composes its resource path, issues one GET
carrying the client's basic-auth credentials and an
`Accept: application/json` header, and returns the transport's decoded
body (for the server endpoint, a typed `ServerInfo` built from it), rather
than failing before any request is made. -/
theorem endpoints_issue_get_c1 (α : Type) (t : Request → α) (c : TeamCityRESTApiClient)
    (DT : Type) (dparse : String → DT) (tj : Request → PyDict) (start count bId : PyVal) :
    (∃ req, c.get_all_builds α t start count = t req
      ∧ req.authUser = c.username ∧ req.authPass = c.password
      ∧ req.accept = "application/json" ∧ req.url = build_url c.base_url ["builds/"])
    ∧ (∃ req, c.get_all_plugins α t = t req
      ∧ req.authUser = c.username ∧ req.authPass = c.password
      ∧ req.accept = "application/json" ∧ req.url = build_url c.base_url ["server/plugins"])
    ∧ (∃ req, c.get_all_changes α t = t req
      ∧ req.authUser = c.username ∧ req.authPass = c.password
      ∧ req.accept = "application/json" ∧ req.url = build_url c.base_url ["changes"])
    ∧ (∃ req, c.get_build_by_build_id α t bId = t req
      ∧ req.authUser = c.username ∧ req.authPass = c.password
      ∧ req.accept = "application/json"
      ∧ req.url = build_url c.base_url ["builds/id:" ++ pyStr bId])
    ∧ (∃ req, c.get_server_info DT dparse tj = ServerInfo.init DT dparse (tj req)
      ∧ req.authUser = c.username ∧ req.authPass = c.password
      ∧ req.accept = "application/json" ∧ req.url = build_url c.base_url ["server"]) :=
  ⟨⟨_, rfl, rfl, rfl, rfl, rfl⟩, ⟨_, rfl, rfl, rfl, rfl, rfl⟩, ⟨_, rfl, rfl, rfl, rfl, rfl⟩,
   ⟨_, rfl, rfl, rfl, rfl, rfl⟩, ⟨_, rfl, rfl, rfl, rfl, rfl⟩⟩

/-- C2: with a nonempty accumulated locator mapping, the filter-supporting
collection endpoints (builds and changes) carry the accumulated locators in
the composed request as the single comma-joined expression, while the
single-resource endpoints carry none, whatever has been accumulated. -/
theorem locator_merge_c2 (c : TeamCityRESTApiClient) (start count bId cId pId : PyVal)
    (hne : c.locators ≠ []) :
    (c.get_all_builds Request id start count).locator = some (combineLocators c.locators)
    ∧ (c.get_all_changes Request id).locator = some (combineLocators c.locators)
    ∧ (c.get_all_builds_by_build_type_id Request id bId start count).locator
        = some (combineLocators c.locators)
    ∧ (c.get_changes_by_build_id Request id bId).locator = some (combineLocators c.locators)
    ∧ (c.get_build_by_build_id Request id bId).locator = Option.none
    ∧ (c.get_change_by_change_id Request id cId).locator = Option.none
    ∧ (c.get_project_by_project_id Request id pId).locator = Option.none
    ∧ (c.get_all_plugins Request id).locator = Option.none := by
  cases h : c.locators with
  | nil => exact absurd h hne
  | cons kv tl =>
    refine ⟨?_, ?_, ?_, ?_, rfl, rfl, rfl, rfl⟩ <;>
      simp [TeamCityRESTApiClient.get_all_builds, TeamCityRESTApiClient.get_all_changes,
        TeamCityRESTApiClient.get_all_builds_by_build_type_id,
        TeamCityRESTApiClient.get_changes_by_build_id, TeamCityRESTApiClient.set_resource,
        TeamCityRESTApiClient.set_start, TeamCityRESTApiClient.set_count, h]

/-- Witness for C2 after one concrete locator-setter sequence. -/
theorem locator_merge_c2_witness :
    (applyCalls (TeamCityRESTApiClient.init (some "u") (some "pw") (some "h") (some 8111)
        Option.none Option.none Option.none Option.none)
      [FilterCall.status (.str "SUCCESS"), FilterCall.branch (.str "main")]).locators ≠ []
    ∧ ((applyCalls (TeamCityRESTApiClient.init (some "u") (some "pw") (some "h") (some 8111)
        Option.none Option.none Option.none Option.none)
      [FilterCall.status (.str "SUCCESS"),
        FilterCall.branch (.str "main")]).get_all_changes Request id).locator
      = some (combineLocators (applyCalls (TeamCityRESTApiClient.init (some "u") (some "pw")
          (some "h") (some 8111) Option.none Option.none Option.none Option.none)
        [FilterCall.status (.str "SUCCESS"), FilterCall.branch (.str "main")]).locators) := by
  refine ⟨by decide, ?_⟩
  exact (locator_merge_c2 _ (.int 0) (.int 0) (.int 0) (.int 0) (.int 0) (by decide)).2.1

/-- C5: `get_changes_by_build_id(42)` on a fresh client composes the
resource path `changes` with the single query parameter `build=id:42`,
embedding no locator expression in the path. -/
theorem changes_by_build_id_c5 (username password server : Option String) (port : Option Int)
    (envUser envPassword envHost : Option String) (envPort : Option Int) :
    ((TeamCityRESTApiClient.init username password server port envUser envPassword envHost
        envPort).get_changes_by_build_id Request id (.int 42)).url
      = build_url (TeamCityRESTApiClient.init username password server port envUser
        envPassword envHost envPort).base_url ["changes"]
    ∧ ((TeamCityRESTApiClient.init username password server port envUser envPassword envHost
        envPort).get_changes_by_build_id Request id (.int 42)).query
      = [("build", "id:42")]
    ∧ ((TeamCityRESTApiClient.init username password server port envUser envPassword envHost
        envPort).get_changes_by_build_id Request id (.int 42)).locator
      = Option.none :=
  ⟨rfl, rfl, rfl⟩

/-- C9: `get_agent_by_agent_id` accepts only integers: every integer id is
formatted into the `agents/id:<aId>` segment of the composed request, but a
string (or `None`) argument makes the `%d` conversion raise before any
request is handed to the transport, whereas `get_build_by_build_id` (a
representative `%s`-formatting by-id endpoint) accepts every value. -/
theorem agent_id_formatting_c9 (α : Type) (t : Request → α) (c : TeamCityRESTApiClient)
    (n : Int) (s : String) (v : PyVal) :
    (∃ req, c.get_agent_by_agent_id α t (.int n) = .ok (t req)
      ∧ req.url = build_url c.base_url ["agents/id:" ++ toString n])
    ∧ c.get_agent_by_agent_id α t (.str s)
        = .error (.typeError "%d format: a number is required, not str")
    ∧ c.get_agent_by_agent_id α t .none
        = .error (.typeError "%d format: a number is required, not NoneType")
    ∧ (∃ req, c.get_build_by_build_id α t v = t req
      ∧ req.url = build_url c.base_url ["builds/id:" ++ pyStr v]) :=
  ⟨⟨_, rfl, rfl⟩, rfl, rfl, ⟨_, rfl, rfl⟩⟩

end TeamCity
